import Mathlib

/-!
Verification of the coronadata reconciliation pipeline.

The pipeline (process_mixed.py, with process_mixed2.py as a close variant)
accumulates per-location daily case/death deltas ("relative" series) from
historical sources, reconciles a live cumulative snapshot into the last day
slot, aggregates synthetic total locations, derives cumulative ("absolute")
and day-over-day ratio ("growth") series, and trims structurally incomplete
boundary days.  Series are embedded as Lean lists indexed by day offset;
integer counts are Int (the live backfill can produce negative deltas), and
growth ratios are Rat, the idealized real-valued semantics of the Python
float division used by the source.
-/

namespace Corona

/-- Read the last slot of a series, as Python reads index -1. -/
def lastSlot (vs : List Int) : Int := vs.getD (vs.length - 1) 0

/-- Live reconciliation of one metric for one location, from process_mixed.py:
`cases_rel[-1] = cases - sum(cases_rel)` — the last slot is overwritten with
the live cumulative total minus the sum of the whole pre-assignment series
(including whatever the last slot already held). -/
def backfillLive (rel : List Int) (total : Int) : List Int :=
  rel.set (rel.length - 1) (total - rel.sum)

/-- Historical trail of a series: all slots strictly before the last one. -/
def historicalTrail (rel : List Int) : List Int := rel.take (rel.length - 1)

theorem length_backfillLive (rel : List Int) (total : Int) :
    (backfillLive rel total).length = rel.length := by
  simp [backfillLive]

theorem lastSlot_backfillLive (rel : List Int) (total : Int) (h : rel ≠ []) :
    lastSlot (backfillLive rel total) = total - rel.sum := by
  have hlen : rel.length - 1 < rel.length := by
    have : 0 < rel.length := List.length_pos.mpr h
    omega
  simp [lastSlot, backfillLive, List.getD_eq_getElem?_getD, List.getElem?_set,
    hlen, List.getElem?_eq_getElem hlen]

theorem historicalTrail_cons_cons (a b : Int) (t : List Int) :
    historicalTrail (a :: b :: t) = a :: historicalTrail (b :: t) := by
  simp [historicalTrail, List.take_succ_cons]

theorem lastSlot_cons_cons (a b : Int) (t : List Int) :
    lastSlot (a :: b :: t) = lastSlot (b :: t) := by
  simp [lastSlot, List.getD_cons_succ]

/-- Splitting the sum of a nonempty series at its last slot. -/
theorem sum_eq_trail_add_last (rel : List Int) (h : rel ≠ []) :
    rel.sum = (historicalTrail rel).sum + lastSlot rel := by
  induction rel with
  | nil => simp at h
  | cons a rest ih =>
    cases rest with
    | nil => simp [historicalTrail, lastSlot]
    | cons b t =>
      have := ih (by simp)
      rw [historicalTrail_cons_cons, lastSlot_cons_cons]
      simp only [List.sum_cons] at *
      omega

/-- C1 (amended): after live reconciliation, the relative series' last slot
equals the live cumulative total minus the sum of ALL pre-reconciliation
relative values — including whatever the last slot itself already held (the
historical source can land a record in the last slot).  When the last slot
was zero beforehand this coincides with the claimed formula
`total − Σ relative[0 .. lastOffset−1]`.  A negative result is stored as-is,
accepted and not corrected (the series is over Int and the assignment is the
plain difference). -/
theorem c1_live_backfill (rel : List Int) (total : Int) (h : rel ≠ []) :
    lastSlot (backfillLive rel total) = total - rel.sum
    ∧ (lastSlot rel = 0 →
        lastSlot (backfillLive rel total) = total - (historicalTrail rel).sum)
    ∧ lastSlot (backfillLive [0, 0] (-3)) = -3 := by
  refine ⟨lastSlot_backfillLive rel total h, ?_, by decide⟩
  intro h0
  rw [lastSlot_backfillLive rel total h, sum_eq_trail_add_last rel h, h0]
  ring

/-- C1 witness: at the end-to-end history [10, 20, 15, 0] with live total 50,
the reconciled last slot is 50 − 45 = 5. -/
theorem c1_live_backfill_witness :
    lastSlot (backfillLive [10, 20, 15, 0] 50) = 5 := by
  have h := c1_live_backfill [10, 20, 15, 0] 50 (by simp)
  rw [h.1]
  decide

/-- C1 counterexample: with historical series [1, 2] (so a record already sits
in the last slot) and live total 10, the code stores 10 − (1 + 2) = 7, not the
claimed 10 − sum(relative[0 .. lastOffset−1]) = 10 − 1 = 9. -/
theorem c1_live_backfill_counterexample :
    lastSlot (backfillLive [1, 2] 10) = 7 ∧
    lastSlot (backfillLive [1, 2] 10) ≠ 10 - (historicalTrail [1, 2]).sum := by
  decide

/-- Absolute derivation, from process_mixed.py:
`metric["absolute"][loc][i] = sum(rel_vals[:i+1])` for every index i. -/
def deriveAbsolute (rel : List Int) : List Int :=
  (List.range rel.length).map (fun i => (rel.take (i + 1)).sum)

/-- First-day trim, from process_mixed.py: `relation_map[loc] = vals[1:]`. -/
def trimFirstDay {α : Type} (vs : List α) : List α := vs.drop 1

theorem getD_trimFirstDay_deriveAbsolute (rel : List Int) (i : Nat)
    (h : i + 1 < rel.length) :
    (trimFirstDay (deriveAbsolute rel)).getD i 0 = (rel.take (i + 2)).sum := by
  simp [trimFirstDay, deriveAbsolute, List.getD_eq_getElem?_getD,
    List.getElem?_drop, List.getElem?_map, List.getElem?_range, h]

/-- C2 (amended): after the first-day trim, `absolute[i]` equals the sum of the
ORIGINAL (untrimmed) relative series through original offset i+1 —
equivalently the dropped first-day relative value plus the sum of the trimmed
relative values at offsets 0..i.  The claimed identity
`absolute[i] = Σ_{k≤i} trimmed relative[k]` holds only when the dropped first
day's relative value is zero. -/
theorem c2_absolute_after_trim (rel : List Int) (i : Nat)
    (h : i < rel.length - 1) :
    (trimFirstDay (deriveAbsolute rel)).getD i 0 = (rel.take (i + 2)).sum
    ∧ (trimFirstDay (deriveAbsolute rel)).getD i 0
        = rel.headD 0 + ((trimFirstDay rel).take (i + 1)).sum := by
  cases rel with
  | nil => simp at h
  | cons a rest =>
    have h1 : i + 1 < (a :: rest).length := by
      simp only [List.length_cons] at h ⊢
      omega
    refine ⟨getD_trimFirstDay_deriveAbsolute _ i h1, ?_⟩
    rw [getD_trimFirstDay_deriveAbsolute _ i h1]
    simp [trimFirstDay, List.take_succ_cons]

/-- C2 witness: for relative series [10, 20, 15], the trimmed absolute series
at index 0 is 10 + 20 = 30. -/
theorem c2_absolute_after_trim_witness :
    (trimFirstDay (deriveAbsolute [10, 20, 15])).getD 0 0 = 30 := by
  have h := c2_absolute_after_trim [10, 20, 15] 0 (by decide)
  rw [h.1]
  decide

/-- C2 counterexample: for relative series [10, 20] (first-day delta 10 ≠ 0),
the trimmed absolute series is [30] while the trimmed relative series is [20]:
at index 0, 30 ≠ Σ_{k≤0} trimmed relative[k] = 20, refuting the claim as
stated. -/
theorem c2_absolute_after_trim_counterexample :
    trimFirstDay (deriveAbsolute [10, 20]) = [30]
    ∧ trimFirstDay ([10, 20] : List Int) = [20]
    ∧ (trimFirstDay (deriveAbsolute [10, 20])).getD 0 0
        ≠ ((trimFirstDay ([10, 20] : List Int)).take (0 + 1)).sum := by
  decide

/-- Round-half-to-even at integer precision, the rounding rule of Python's
built-in `round` (with exact rational arithmetic standing in for the float
arithmetic of the source). -/
def roundHalfEven (q : Rat) : Int :=
  let f := ⌊q⌋
  let r := q - (f : Rat)
  if r < 1 / 2 then f
  else if 1 / 2 < r then f + 1
  else if f % 2 = 0 then f else f + 1

/-- `round(x, 2)`: round to two decimal digits. -/
def roundTo2 (q : Rat) : Rat := (roundHalfEven (q * 100) : Rat) / 100

theorem roundTo2_zero : roundTo2 0 = 0 := by
  norm_num [roundTo2, roundHalfEven]

/-- Growth derivation, from process_mixed.py: the growth list starts as all
zeros; for each index i ≥ 1,
`grw = new_cases / prev_cases if prev_cases else 0` and
`metric["growth"][loc][i] = round(grw, 2)`.  Index 0 keeps its initial 0. -/
def deriveGrowth (rel : List Int) : List Rat :=
  (List.range rel.length).map fun i =>
    if i = 0 then 0
    else
      let prev := rel.getD (i - 1) 0
      roundTo2 (if prev ≠ 0 then (rel.getD i 0 : Rat) / (prev : Rat) else 0)

/-- C3 (confirmed): in the derived growth series (the arrays produced by the
growth loop, indexed on the pipeline's untrimmed day axis), `growth[i]` for
i ≥ 1 equals `relative[i] / relative[i-1]` rounded to two decimal digits when
`relative[i-1] ≠ 0` (the rounded value is what is stored), equals 0 when
`relative[i-1] = 0`, and `growth[0] = 0` always. -/
theorem c3_growth (rel : List Int) (i : Nat) (h1 : 1 ≤ i)
    (h2 : i < rel.length) :
    ((deriveGrowth rel).getD i 0
      = if rel.getD (i - 1) 0 ≠ 0
        then roundTo2 ((rel.getD i 0 : Rat) / (rel.getD (i - 1) 0 : Rat))
        else 0)
    ∧ (deriveGrowth rel).getD 0 0 = 0 := by
  have hi0 : i ≠ 0 := by omega
  have h0 : 0 < rel.length := by omega
  have key : ∀ j, j < rel.length → (deriveGrowth rel).getD j 0
      = if j = 0 then 0
        else roundTo2 (if rel.getD (j - 1) 0 ≠ 0
          then (rel.getD j 0 : Rat) / (rel.getD (j - 1) 0 : Rat) else 0) := by
    intro j hj
    simp only [deriveGrowth, List.getD_eq_getElem?_getD, List.getElem?_map,
      List.getElem?_range hj, Option.map_some', Option.getD_some]
  constructor
  · rw [key i h2, if_neg hi0]
    by_cases hp : rel.getD (i - 1) 0 = 0
    · rw [if_neg (by simpa using hp), if_neg (by simpa using hp)]
      exact roundTo2_zero
    · rw [if_pos hp, if_pos hp]
  · rw [key 0 h0]
    simp

/-- C3 witness: for relative series [10, 20, 0, 7], growth[1] = round(2, 2)
= 2, growth[3] = 0 (previous delta zero), and growth[0] = 0. -/
theorem c3_growth_witness :
    (deriveGrowth [10, 20, 0, 7]).getD 1 0 = 2
    ∧ (deriveGrowth [10, 20, 0, 7]).getD 3 0 = 0
    ∧ (deriveGrowth [10, 20, 0, 7]).getD 0 0 = 0 := by
  have ha := c3_growth [10, 20, 0, 7] 1 (by decide) (by decide)
  have hb := c3_growth [10, 20, 0, 7] 3 (by decide) (by decide)
  refine ⟨?_, ?_, ha.2⟩
  · rw [ha.1]
    norm_num [roundTo2, roundHalfEven]
  · rw [hb.1]
    norm_num

/-- The full country-tier pipeline for one location and one metric: live
backfill into the last slot, absolute and growth derivation from the
reconciled relative series, then the first-day trim (Country-tier series are
not subject to the last-day trim).  Returns (relative, absolute, growth). -/
def pipelineCountry (hist : List Int) (total : Int) :
    List Int × List Int × List Rat :=
  let rel := backfillLive hist total
  (trimFirstDay rel, trimFirstDay (deriveAbsolute rel),
    trimFirstDay (deriveGrowth rel))

/-- Evaluation of `roundTo2` when the scaled value falls strictly below the
half-way point above its floor. -/
theorem roundTo2_eq_of_lt (q : Rat) (z : Int) (hl : (z : Rat) ≤ q * 100)
    (hu : q * 100 < (z : Rat) + 1) (hr : q * 100 - (z : Rat) < 1 / 2) :
    roundTo2 q = (z : Rat) / 100 := by
  have hf : ⌊q * 100⌋ = z := Int.floor_eq_iff.mpr ⟨hl, by linarith⟩
  simp only [roundTo2, roundHalfEven, hf]
  rw [if_pos hr]

theorem deriveGrowth_example_eval :
    deriveGrowth [10, 20, 15, 5] = [0, 2, 3 / 4, 33 / 100] := by
  have e1 : roundTo2 2 = 2 := by
    have := roundTo2_eq_of_lt 2 200 (by norm_num) (by norm_num) (by norm_num)
    rw [this]
    norm_num
  have e2 : roundTo2 (3 / 4) = 3 / 4 := by
    have := roundTo2_eq_of_lt (3 / 4) 75 (by norm_num) (by norm_num)
      (by norm_num)
    rw [this]
    norm_num
  have e3 : roundTo2 (1 / 3) = 33 / 100 := by
    have := roundTo2_eq_of_lt (1 / 3) 33 (by norm_num) (by norm_num)
      (by norm_num)
    rw [this]
    norm_num
  have hr : List.range 4 = [0, 1, 2, 3] := rfl
  simp only [deriveGrowth, List.length_cons, List.length_nil, hr, List.map_cons,
    List.map_nil]
  norm_num [List.getD]
  exact ⟨e1, e2, e3⟩

/-- C6 (amended): on historical deltas [10, 20, 15, 0] with live cumulative
total 50, the pipeline reconciles the last slot to 50 − 45 = 5 and, after the
first-day trim, yields relative = [20, 15, 5] (as claimed), but
absolute = [30, 45, 50] (the running sums still include the dropped first
day's delta 10) and growth = [2, 0.75, 0.33] (the retained slots are the
pre-trim indices 1..3, whose first growth value is 20/10 = 2, not 0). -/
theorem c6_pipeline_example :
    (pipelineCountry [10, 20, 15, 0] 50).1 = [20, 15, 5]
    ∧ (pipelineCountry [10, 20, 15, 0] 50).2.1 = [30, 45, 50]
    ∧ (pipelineCountry [10, 20, 15, 0] 50).2.2 = [2, 3 / 4, 33 / 100] := by
  have hb : backfillLive [10, 20, 15, 0] 50 = [10, 20, 15, 5] := by decide
  refine ⟨by decide, by decide, ?_⟩
  show trimFirstDay (deriveGrowth (backfillLive [10, 20, 15, 0] 50)) = _
  rw [hb, deriveGrowth_example_eval]
  rfl

/-- C6 counterexample: the pipeline output on the claim's own input differs
from the claimed values: absolute is [30, 45, 50], not [20, 35, 40], and
growth is [2, 0.75, 0.33], not [0, 0.75, 0.33]. -/
theorem c6_pipeline_example_counterexample :
    (pipelineCountry [10, 20, 15, 0] 50).2.1 ≠ [20, 35, 40]
    ∧ (pipelineCountry [10, 20, 15, 0] 50).2.2 ≠ [0, 3 / 4, 33 / 100] := by
  have hb : backfillLive [10, 20, 15, 0] 50 = [10, 20, 15, 5] := by decide
  refine ⟨by decide, ?_⟩
  show trimFirstDay (deriveGrowth (backfillLive [10, 20, 15, 0] 50)) ≠ _
  rw [hb, deriveGrowth_example_eval]
  simp only [trimFirstDay, List.drop_succ_cons, List.drop_zero, ne_eq,
    List.cons.injEq, not_and]
  intro h
  norm_num at h

/-- Day-axis length as computed in process_mixed.py, where D stands for the
floored day difference `(end_date − start_date).days`:
`n_days = (end_date - start_date).days + 1`. -/
def nDaysInitial (D : Nat) : Nat := D + 1

/-- Day count after the first-day trim: `n_days -= 1`. -/
def nDaysFinal (D : Nat) : Nat := nDaysInitial D - 1

/-- Last-day trim applied to State/County tier series: `values[:-1]`. -/
def trimLastDay {α : Type} (vs : List α) : List α := vs.dropLast

/-- C7 (amended): after trimming, the day-axis length (per-series element
count and the exported dates.count) equals `(end_date − start_date).days`
for Country-tier and Meta series — one MORE than the claimed `.days − 1` —
and `(end_date − start_date).days − 1` for State/County tier series; the
exported dayCount matches the retained series length, and retained index i
corresponds to original day offset i + 1, consistent with startDate having
been advanced by one day. -/
theorem c7_day_axis (D : Nat) (vs : List Int) (h : vs.length = nDaysInitial D) :
    nDaysFinal D = D
    ∧ (trimFirstDay vs).length = D
    ∧ (trimLastDay (trimFirstDay vs)).length = D - 1
    ∧ (∀ i, (trimFirstDay vs).getD i 0 = vs.getD (i + 1) 0) := by
  refine ⟨rfl, ?_, ?_, ?_⟩
  · simp [trimFirstDay, h, nDaysInitial]
  · simp [trimFirstDay, trimLastDay, h, nDaysInitial]
  · intro i
    simp [trimFirstDay, List.getD_eq_getElem?_getD, List.getElem?_drop,
      Nat.add_comm]

/-- C7 witness: a series of initial length 4 (D = 3) trims to length 3 for
Country/Meta tiers and length 2 for State/County tiers. -/
theorem c7_day_axis_witness :
    nDaysFinal 3 = 3
    ∧ (trimFirstDay ([0, 1, 2, 3] : List Int)).length = 3
    ∧ (trimLastDay (trimFirstDay ([0, 1, 2, 3] : List Int))).length = 3 - 1
    ∧ (∀ i, (trimFirstDay ([0, 1, 2, 3] : List Int)).getD i 0
        = ([0, 1, 2, 3] : List Int).getD (i + 1) 0) :=
  c7_day_axis 3 [0, 1, 2, 3] (by decide)

/-- C7 counterexample: with `(end_date − start_date).days = 5` the initial
axis has 6 slots and the trimmed Country-tier length and exported count are
5, not the claimed 5 − 1 = 4. -/
theorem c7_day_axis_counterexample :
    (trimFirstDay (List.replicate (nDaysInitial 5) (0 : Int))).length ≠ 5 - 1
    ∧ nDaysFinal 5 ≠ 5 - 1 := by
  decide

/-- From process_mixed.py: the global fallback population. -/
def FALLBACK_POPULATION : Int := 33082146

/-- Static per-country population overrides from process_mixed.py. -/
def population_overrides (code : String) : Option Int :=
  if code = "AIA" then some 14969
  else if code = "ERI" then some 3533929
  else if code = "FLK" then some 3454
  else if code = "BES" then some 26167
  else if code = "BLM" then some 9870
  else if code = "CZE" then some 10704466
  else none

/-- Population extraction from the ECDC loop of process_mixed.py:
`int(entry["popData2018"] or population_overrides[loc.code])` with the
KeyError caught and replaced by FALLBACK_POPULATION.  `popData` models the
CSV cell: `none` for an empty cell, `some v` for a non-empty cell holding the
integer v (a non-empty cell is truthy in Python even when it holds "0"). -/
def extractPopulation (popData : Option Int) (code : String) : Int :=
  match popData with
  | some v => v
  | none =>
    match population_overrides code with
    | some p => p
    | none => FALLBACK_POPULATION

/-- C9 (amended): the recorded population is the provider's reported value
whenever the field is present (non-empty) — including a reported value of
zero — else the static per-country override, else the fixed global fallback
average; the extraction is total, so a missing population never fails the
record or the run. -/
theorem c9_population (popData : Option Int) (code : String) :
    (∀ v, popData = some v → extractPopulation popData code = v)
    ∧ (popData = none → ∀ p, population_overrides code = some p →
        extractPopulation popData code = p)
    ∧ (popData = none → population_overrides code = none →
        extractPopulation popData code = FALLBACK_POPULATION) := by
  refine ⟨?_, ?_, ?_⟩
  · intro v hv
    simp [extractPopulation, hv]
  · intro hn p hp
    simp [extractPopulation, hn, hp]
  · intro hn hp
    simp [extractPopulation, hn, hp]

/-- C9 witness: a reported value 7 is kept, an empty cell for "AIA" falls back
to the override 14969, and an empty cell for an unknown code falls back to
the global average. -/
theorem c9_population_witness :
    extractPopulation (some 7) "AIA" = 7
    ∧ extractPopulation none "AIA" = 14969
    ∧ extractPopulation none "ZZZ" = FALLBACK_POPULATION :=
  ⟨(c9_population (some 7) "AIA").1 7 rfl,
    (c9_population none "AIA").2.1 rfl 14969 (by decide),
    (c9_population none "ZZZ").2.2 rfl (by decide)⟩

/-- C9 counterexample: a present-but-zero reported population is recorded as
0 (a non-empty cell is truthy in Python), not replaced by the per-country
override 14969 as the claim's "present and non-zero" condition requires. -/
theorem c9_population_counterexample :
    extractPopulation (some 0) "AIA" = 0
    ∧ extractPopulation (some 0) "AIA" ≠ 14969
    ∧ population_overrides "AIA" = some 14969 := by
  decide

/-- Canonical location identity, from the `Location` dataclass of
process_mixed.py.  Only the four identity-key fields are stored; the derived
flags (`is_state`, `is_county`, `is_country`, `is_internal`) are
deterministic functions of these and are defined below.  Dataclass equality
and hashing are therefore equality on these four fields. -/
structure Location where
  code : String
  state : Option String
  county : Option String
  fips : Option String
deriving DecidableEq

/-- Constructor with the `__post_init__` adjustment: code "_TS" forces
state = "Total" and code "_TC" forces county = "Total". -/
def Location.make (code : String) (state county fips : Option String) :
    Location :=
  if code = "_TS" then ⟨code, some "Total", county, fips⟩
  else if code = "_TC" then ⟨code, state, some "Total", fips⟩
  else ⟨code, state, county, fips⟩

/-- Python truthiness of an optional string: None and "" are falsy. -/
def pyTruthy : Option String → Bool
  | none => false
  | some s => !s.isEmpty

/-- `is_state = self.state and not self.county` (truthiness of the value). -/
def Location.isState (l : Location) : Bool :=
  pyTruthy l.state && !pyTruthy l.county

/-- `is_county = bool(self.county)`. -/
def Location.isCounty (l : Location) : Bool := pyTruthy l.county

/-- `is_country = not (self.is_state or self.is_county)`. -/
def Location.isCountry (l : Location) : Bool := !(l.isState || l.isCounty)

/-- `is_internal = self.code.startswith("_")`. -/
def Location.isInternal (l : Location) : Bool := l.code.startsWith "_"

/-- The synthetic grand-total location `_TO = Location("_TO")`. -/
def locTO : Location := Location.make "_TO" none none none

/-- The synthetic state-total location `_TS = Location("_TS")`. -/
def locTS : Location := Location.make "_TS" none none none

/-- The synthetic county-total location `_TC = Location("_TC")`. -/
def locTC : Location := Location.make "_TC" none none none

/-- The last-day removal pass of process_mixed.py: for every location in a
relation map, `if loc.is_state or loc.is_county: locations[loc] = values[:-1]`. -/
def trimLastPass (m : List (Location × List Int)) : List (Location × List Int) :=
  m.map fun e =>
    if e.1.isState || e.1.isCounty then (e.1, trimLastDay e.2) else e

/-- C4 (amended): the final day offset is dropped exactly from series whose
location satisfies `is_state` or `is_county`.  Because `__post_init__` gives
the synthetic state-total location `_TS` state "Total" and the county-total
location `_TC` county "Total", those two Meta series are dropped along with
the State- and County-tier data series; only Country-tier series (including
internal country sentinels) and the grand-total Meta location `_TO` keep the
final day. -/
theorem c4_last_day_policy (l : Location) (vs : List Int)
    (m : List (Location × List Int)) (h : (l, vs) ∈ m) :
    ((l, if l.isState || l.isCounty then trimLastDay vs else vs)
        ∈ trimLastPass m)
    ∧ locTS.isState = true ∧ locTC.isCounty = true
    ∧ locTO.isState = false ∧ locTO.isCounty = false
    ∧ trimLastPass [(locTS, vs)] = [(locTS, trimLastDay vs)]
    ∧ trimLastPass [(locTC, vs)] = [(locTC, trimLastDay vs)]
    ∧ trimLastPass [(locTO, vs)] = [(locTO, vs)] := by
  refine ⟨?_, by decide, by decide, by decide, by decide, ?_, ?_, ?_⟩
  · have hf : (fun e : Location × List Int =>
        if e.1.isState || e.1.isCounty then (e.1, trimLastDay e.2) else e)
          (l, vs)
        = (l, if l.isState || l.isCounty then trimLastDay vs else vs) := by
      by_cases hc : (l.isState || l.isCounty) = true
      · simp [hc]
      · simp only [Bool.not_eq_true] at hc
        simp [hc]
    exact hf ▸ List.mem_map_of_mem _ h
  · have ht : "Total".isEmpty = false := rfl
    simp [trimLastPass, locTS, Location.make, Location.isState,
      Location.isCounty, pyTruthy, ht]
  · have ht : "Total".isEmpty = false := rfl
    simp [trimLastPass, locTC, Location.make, Location.isState,
      Location.isCounty, pyTruthy, ht]
  · simp [trimLastPass, locTO, Location.make, Location.isState,
      Location.isCounty, pyTruthy]

/-- C4 witness: instantiation at the state-total location with series [1, 2],
a member of the singleton relation map. -/
theorem c4_last_day_policy_witness :
    ((locTS, if locTS.isState || locTS.isCounty
        then trimLastDay [1, 2] else [1, 2])
      ∈ trimLastPass [(locTS, [1, 2])])
    ∧ locTS.isState = true ∧ locTC.isCounty = true
    ∧ locTO.isState = false ∧ locTO.isCounty = false
    ∧ trimLastPass [(locTS, [1, 2])] = [(locTS, trimLastDay [1, 2])]
    ∧ trimLastPass [(locTC, [1, 2])] = [(locTC, trimLastDay [1, 2])]
    ∧ trimLastPass [(locTO, [1, 2])] = [(locTO, [1, 2])] :=
  c4_last_day_policy locTS [1, 2] [(locTS, [1, 2])] (by decide)

/-- C4 counterexample: the Meta state-total series [1, 2] does NOT keep its
final day — the last-day pass trims it to [1]. -/
theorem c4_last_day_policy_counterexample :
    trimLastPass [(locTS, [1, 2])] = [(locTS, [1])]
    ∧ trimLastPass [(locTS, [1, 2])] ≠ [(locTS, [1, 2])] := by
  decide

/-- Association-list lookup keyed by decidable equality, the shallow embedding
of a Python dict read. -/
def alookup {α β : Type} [DecidableEq α] : List (α × β) → α → Option β
  | [], _ => none
  | e :: rest, k => if e.1 = k then some e.2 else alookup rest k

theorem alookup_append_right {α β : Type} [DecidableEq α]
    (m : List (α × β)) (k : α) (v : β) (h : alookup m k = none) :
    alookup (m ++ [(k, v)]) k = some v := by
  induction m with
  | nil => simp [alookup]
  | cons e rest ih =>
    by_cases he : e.1 = k
    · simp [alookup, he] at h
    · simp only [alookup, he, if_neg, List.cons_append] at h ⊢
      exact ih h

/-- `alpha2_overrides` from process_mixed.py. -/
def alpha2_overrides (c : String) : Option String :=
  if c = "XK" then some "XKX"
  else if c = "DP" then some "_DP"
  else if c = "AI" then some "AIA"
  else if c = "JPG11668" then some "_DP"
  else none

/-- `alpha3_overrides` from process_mixed.py. -/
def alpha3_overrides (c : String) : Option String :=
  if c = "XKX" then some "XKX" else none

/-- `name_alpha3_overrides` from process_mixed.py. -/
def name_alpha3_overrides (n : String) : Option String :=
  if n = "Diamond Princess" then some "_DP"
  else if n = "MS Zaandam" then some "_MZ"
  else none

/-- Model of the external ISO-3166 dataset consulted through pycountry,
restricted to a finite representative fragment: alpha-3 validation.  The
claims settled here do not depend on its exact contents (the alias codes
"XK" and "XKX" are handled by the override tables before any ISO lookup). -/
def isoAlpha3Valid (c : String) : Bool :=
  c = "USA" || c = "FRA" || c = "CHN" || c = "GUF" || c = "HKG" || c = "AIA"
    || c = "ERI" || c = "CZE" || c = "DEU" || c = "ITA"

/-- Model of the external ISO-3166 alpha-2 → alpha-3 translation (pycountry),
same finite fragment. -/
def isoAlpha2ToAlpha3 (c : String) : Option String :=
  if c = "US" then some "USA"
  else if c = "FR" then some "FRA"
  else if c = "CN" then some "CHN"
  else if c = "DE" then some "DEU"
  else if c = "IT" then some "ITA"
  else none

/-- `Location._normalize_code` from process_mixed.py: a truthy code of length
3 goes through the alpha-3 override table, then ISO validation; length 2
through the alpha-2 override table, then ISO translation; on fall-through the
geo id is tried against the alpha-2 overrides, then the given name against
the name overrides; otherwise the record is dropped (None, with a warning).
The Python None defaults of `geo_id` and `given_name` are modelled by the
empty string, which has the same truthiness and is in no override table. -/
def normalizeCode (code geoId givenName : String) : Option String :=
  let step3 : Option String :=
    if !code.isEmpty && code.length = 3 then
      match alpha3_overrides code with
      | some o => some o
      | none => if isoAlpha3Valid code then some code else none
    else none
  let step2 : Option String :=
    if !code.isEmpty && code.length = 2 then
      match alpha2_overrides code with
      | some o => some o
      | none => isoAlpha2ToAlpha3 code
    else none
  let stepGeo : Option String :=
    if !geoId.isEmpty then alpha2_overrides geoId else none
  let stepName : Option String :=
    if !givenName.isEmpty then name_alpha3_overrides givenName else none
  match step3 with
  | some r => some r
  | none =>
    match step2 with
    | some r => some r
    | none =>
      match stepGeo with
      | some r => some r
      | none => stepName

/-- `Location.from_code`: resolve and construct a country Location. -/
def from_code (code geoId givenName : String) : Option Location :=
  (normalizeCode code geoId givenName).map fun c => Location.make c none none none

/-- The identity key by which Locations compare equal and hash:
`(code, state, county, fips)`. -/
def locKey (l : Location) : String × Option String × Option String × Option String :=
  (l.code, l.state, l.county, l.fips)

/-- `country_id_overrides` from process_mixed2.py. -/
def country_id_overrides (c : String) : Option String :=
  if c = "DP" then some "Diamond Princess"
  else if c = "CD" || c = "COD" then some "Democratic Republic of the Congo"
  else if c = "VA" || c = "VAT" then some "Holy See"
  else if c = "IR" || c = "IRN" then some "Iran"
  else if c = "PS" || c = "PSE" then some "Palestine"
  else if c = "RU" || c = "RUS" then some "Russia"
  else if c = "KP" || c = "PRK" then some "North Korea"
  else if c = "KR" || c = "KOR" then some "South Korea"
  else if c = "XK" || c = "XKX" then some "Kosovo"
  else if c = "VG" || c = "VGB" then some "British Virgin Islands"
  else if c = "LA" || c = "LAO" then some "Laos"
  else if c = "SX" || c = "SXM" then some "Sint Maarten"
  else if c = "VI" || c = "VIR" then some "United States Virgin Islands"
  else if c = "FK" || c = "FLK" then some "Falkland Islands"
  else if c = "SYR" || c = "SY" then some "Syria"
  else none

/-- `geo_id_overrides` from process_mixed2.py. -/
def geo_id_overrides (g : String) : Option String :=
  if g = "JPG11668" then some "Diamond Princess" else none

/-- Model of the external pycountry name lookup used by process_mixed2.py
(common name by alpha-2 or alpha-3 code), same finite fragment. -/
def isoNameByCode (c : String) : Option String :=
  if c = "US" || c = "USA" then some "United States"
  else if c = "FR" || c = "FRA" then some "France"
  else if c = "GF" || c = "GUF" then some "French Guiana"
  else if c = "CN" || c = "CHN" then some "China"
  else if c = "HK" || c = "HKG" then some "Hong Kong"
  else none

/-- The uncached body of `get_country_name` from process_mixed2.py. -/
def computeCountryName (countryId : String) (geoId : Option String)
    (providedName : String) : String :=
  match country_id_overrides countryId with
  | some n => n
  | none =>
    match (match geoId with | some g => geo_id_overrides g | none => none) with
    | some n => n
    | none =>
      match isoNameByCode countryId with
      | some n => n
      | none => providedName.replace "_" " "

/-- `get_country_name` from process_mixed2.py with its process-wide cache made
explicit: a hit on the `(country_id, geo_id)` key returns the cached name
unchanged; a miss computes the name and appends it to the cache. -/
def get_country_name (cache : List ((String × Option String) × String))
    (countryId : String) (geoId : Option String) (providedName : String) :
    String × List ((String × Option String) × String) :=
  match alookup cache (countryId, geoId) with
  | some n => (n, cache)
  | none =>
    let n := computeCountryName countryId geoId providedName
    (n, cache ++ [((countryId, geoId), n)])

/-- C8 (confirmed): resolving the same raw identifier twice yields equal
results — through the process_mixed2 cache (the second, cache-threaded call
returns the name the first call produced) and through `from_code` (two
resolutions of the same triple give Locations with equal identity keys) —
and the override-aliased historical codes "XK" and "XKX" for the disputed
territory resolve to identity-equal Locations (both to code "XKX"). -/
theorem c8_resolution (cache : List ((String × Option String) × String))
    (cid : String) (gid : Option String) (pname : String) :
    (get_country_name (get_country_name cache cid gid pname).2 cid gid pname).1
      = (get_country_name cache cid gid pname).1
    ∧ (∀ c g n l₁ l₂, from_code c g n = some l₁ → from_code c g n = some l₂ →
        locKey l₁ = locKey l₂)
    ∧ ((from_code "XK" "" "").map locKey = (from_code "XKX" "" "").map locKey
        ∧ (from_code "XK" "" "").isSome = true) := by
  refine ⟨?_, ?_, by decide⟩
  · cases hc : alookup cache (cid, gid) with
    | some n => simp [get_country_name, hc]
    | none =>
      simp only [get_country_name, hc]
      rw [alookup_append_right cache (cid, gid) _ hc]
  · intro c g n l₁ l₂ h₁ h₂
    rw [h₁] at h₂
    injection h₂ with h₂
    rw [h₂]

/-- C8 witness: the cache round-trip at ("XK", none, "Kosovo") and the
identity key of the Location both "XK" and "XKX" resolve to. -/
theorem c8_resolution_witness :
    (get_country_name (get_country_name [] "XK" none "Kosovo").2
        "XK" none "Kosovo").1
      = (get_country_name [] "XK" none "Kosovo").1
    ∧ locKey (Location.make "XKX" none none none)
        = locKey (Location.make "XKX" none none none) :=
  ⟨(c8_resolution [] "XK" none "Kosovo").1,
    (c8_resolution [] "XK" none "Kosovo").2.1 "XK" "" "" _ _
      (by decide) (by decide)⟩

/-- A Python dict key as used by the live-snapshot maps: process_mixed.py
keys the map by Location objects while the combined-countries loop probes it
with raw alpha-3 strings; a string never compares equal to a Location. -/
inductive PyKey where
  | str : String → PyKey
  | loc : Location → PyKey
deriving DecidableEq

/-- A live entry's (total_cases, total_deaths). -/
abbrev LiveEntry := Int × Int

/-- `ecdc_combined_countries` from process_mixed.py (alpha-3 codes). -/
def ecdc_combined_countries : List (String × String) :=
  [("GUF", "FRA"), ("HKG", "CHN")]

/-- `ecdc_combined_countries` from process_mixed2.py (country names). -/
def ecdc_combined_countries2 : List (String × String) :=
  [("French Guiana", "France"), ("Hong Kong", "China")]

/-- One iteration of the combined-countries merge loop of process_mixed.py,
probing the Location-keyed live map with the raw string codes:
`if missing in live: live[target][...] += live[missing][...]; del live[missing]`.
An absent target under a present missing key is the uncaught KeyError of
`live[target]`, modelled as `none` (the run aborts). -/
def mergeStepMixed (m : List (PyKey × LiveEntry)) (mt : String × String) :
    Option (List (PyKey × LiveEntry)) :=
  if (alookup m (PyKey.str mt.1)).isSome then
    match alookup m (PyKey.str mt.2), alookup m (PyKey.str mt.1) with
    | some te, some me =>
      some ((m.map fun e =>
          if e.1 = PyKey.str mt.2 then (e.1, (te.1 + me.1, te.2 + me.2))
          else e).filter
        fun e => if e.1 = PyKey.str mt.1 then false else true)
    | _, _ => none
  else some m

/-- The whole combined-countries merge pass of process_mixed.py. -/
def mergeCombinedMixed (m : List (PyKey × LiveEntry)) :
    Option (List (PyKey × LiveEntry)) :=
  ecdc_combined_countries.foldlM mergeStepMixed m

/-- One iteration of the same merge loop in process_mixed2.py, where the live
map is keyed by country-name strings, so the probe can actually hit. -/
def mergeStepLive2 (m : List (String × LiveEntry)) (mt : String × String) :
    Option (List (String × LiveEntry)) :=
  if (alookup m mt.1).isSome then
    match alookup m mt.2, alookup m mt.1 with
    | some te, some me =>
      some ((m.map fun e =>
          if e.1 = mt.2 then (e.1, (te.1 + me.1, te.2 + me.2)) else e).filter
        fun e => if e.1 = mt.1 then false else true)
    | _, _ => none
  else some m

theorem alookup_str_of_loc_keys (m : List (PyKey × LiveEntry))
    (hm : ∀ e ∈ m, ∃ l, e.1 = PyKey.loc l) (s : String) :
    alookup m (PyKey.str s) = none := by
  induction m with
  | nil => rfl
  | cons e rest ih =>
    obtain ⟨l, hl⟩ := hm e (by simp)
    have hne : e.1 ≠ PyKey.str s := by
      rw [hl]
      intro hcon
      exact PyKey.noConfusion hcon
    simp only [alookup, if_neg hne]
    exact ih fun e' he' => hm e' (by simp [he'])

/-- C10: the claim correctly describes the merge semantics on a string-keyed
live map (the process_mixed2.py variant): an absent missing key leaves the
snapshot unchanged; with both present the missing entry is removed and the
target's totals become the pre-merge sums; a present missing key with an
absent target is an uncaught KeyError aborting the run.  But in
process_mixed.py the live map is keyed by Location objects while the loop
probes it with raw strings, which never compare equal, so the merge NEVER
fires: any Location-keyed snapshot — including one that does contain the
missing country — passes through unchanged. -/
theorem c10_combined_merge :
    (∀ m : List (PyKey × LiveEntry), (∀ e ∈ m, ∃ l, e.1 = PyKey.loc l) →
        mergeCombinedMixed m = some m)
    ∧ mergeCombinedMixed
        [(PyKey.loc (Location.make "GUF" none none none), (5, 1)),
          (PyKey.loc (Location.make "FRA" none none none), (10, 2))]
        = some [(PyKey.loc (Location.make "GUF" none none none), (5, 1)),
            (PyKey.loc (Location.make "FRA" none none none), (10, 2))]
    ∧ mergeStepLive2 [("French Guiana", (5, 1)), ("France", (10, 2))]
        ("French Guiana", "France") = some [("France", (15, 3))]
    ∧ mergeStepLive2 [("Germany", (7, 0))] ("French Guiana", "France")
        = some [("Germany", (7, 0))]
    ∧ mergeStepLive2 [("French Guiana", (5, 1))] ("French Guiana", "France")
        = none := by
  refine ⟨?_, by decide, by decide, by decide, by decide⟩
  intro m hm
  have h1 : mergeStepMixed m ("GUF", "FRA") = some m := by
    simp [mergeStepMixed, alookup_str_of_loc_keys m hm]
  have h2 : mergeStepMixed m ("HKG", "CHN") = some m := by
    simp [mergeStepMixed, alookup_str_of_loc_keys m hm]
  simp [mergeCombinedMixed, ecdc_combined_countries, List.foldlM, h1, h2]

/-- C10 witness: a Location-keyed snapshot containing the missing country
GUF passes the merge pass unchanged. -/
theorem c10_combined_merge_witness :
    mergeCombinedMixed
        [(PyKey.loc (Location.make "GUF" none none none), (5, 1))]
      = some [(PyKey.loc (Location.make "GUF" none none none), (5, 1))] :=
  c10_combined_merge.1 _ (by
    intro e he
    simp only [List.mem_singleton] at he
    subst he
    exact ⟨Location.make "GUF" none none none, rfl⟩)

/-- Defaultdict read of a location's series: a missing location yields the
fresh zero list `[0] * n_days`. -/
def getSeries (n : Nat) (m : List (Location × List Int)) (l : Location) :
    List Int :=
  (alookup m l).getD (List.replicate n 0)

/-- `vals[l][i] = v` on the defaultdict: an existing location's series is
updated in place; a missing location is first created as the zero list and
appended in insertion order. -/
def setSlot (n : Nat) (m : List (Location × List Int)) (l : Location) (i : Nat)
    (v : Int) : List (Location × List Int) :=
  if (alookup m l).isSome then
    m.map fun e => if e.1 = l then (e.1, e.2.set i v) else e
  else m ++ [(l, (List.replicate n 0).set i v)]

/-- `sum(cases[i] for loc, cases in vals.items() if p(loc))`: the slot-i sum
over every location of the map satisfying p — no matching location skipped. -/
def sumTier (p : Location → Bool) (m : List (Location × List Int)) (i : Nat) :
    Int :=
  ((m.filter fun e => p e.1).map fun e => e.2.getD i 0).sum

/-- One day offset of the totals loop of process_mixed.py:
`vals[_TO][i] = sum(... if loc.is_country)` then the same for `_TS` with
`is_state` and `_TC` with `is_county`, each sum reading the map as already
updated within this iteration. -/
def totalsStep (n : Nat) (m : List (Location × List Int)) (i : Nat) :
    List (Location × List Int) :=
  let m1 := setSlot n m locTO i (sumTier Location.isCountry m i)
  let m2 := setSlot n m1 locTS i (sumTier Location.isState m1 i)
  setSlot n m2 locTC i (sumTier Location.isCounty m2 i)

/-- The totals loop over all day offsets: `for i in range(n_days): ...`. -/
def totalsPass (n : Nat) (m : List (Location × List Int)) :
    List (Location × List Int) :=
  (List.range n).foldl (totalsStep n) m

/-- The synthetic series after the first j day offsets have been filled with
the values of f: slots below j hold f, the rest still hold the initial 0. -/
def synthSeries (f : Nat → Int) (n j : Nat) : List Int :=
  (List.range n).map fun k => if k < j then f k else 0

theorem length_synthSeries (f : Nat → Int) (n j : Nat) :
    (synthSeries f n j).length = n := by
  simp [synthSeries]

theorem synthSeries_zero (f : Nat → Int) (n : Nat) :
    synthSeries f n 0 = List.replicate n 0 := by
  simp [synthSeries, List.map_const']

theorem getD_synthSeries (f : Nat → Int) (n j i : Nat) :
    (synthSeries f n i).getD j 0 = if j < n ∧ j < i then f j else 0 := by
  by_cases hn : j < n
  · have : (synthSeries f n i)[j]? = some (if j < i then f j else 0) := by
      simp [synthSeries, List.getElem?_map, List.getElem?_range hn]
    simp [List.getD_eq_getElem?_getD, this, hn]
  · have : (synthSeries f n i)[j]? = none := by
      rw [List.getElem?_eq_none_iff]
      simp [length_synthSeries]
      omega
    simp [List.getD_eq_getElem?_getD, this, hn]

theorem synthSeries_getElem? (f : Nat → Int) (n i k : Nat) :
    (synthSeries f n i)[k]?
      = if k < n then some (if k < i then f k else 0) else none := by
  by_cases hk : k < n
  · simp [synthSeries, List.getElem?_map, List.getElem?_range hk, hk]
  · rw [if_neg hk]
    apply List.getElem?_eq_none
    rw [length_synthSeries]
    omega

theorem getElem?_getD_synthSeries (f : Nat → Int) (n i j : Nat) :
    (synthSeries f n i)[j]?.getD 0 = if j < n ∧ j < i then f j else 0 := by
  rw [synthSeries_getElem?]
  by_cases hk : j < n
  · simp [hk]
  · simp [hk]

theorem set_synthSeries (f : Nat → Int) (n j : Nat) (hj : j < n) :
    (synthSeries f n j).set j (f j) = synthSeries f n (j + 1) := by
  apply List.ext_getElem?
  intro k
  rw [synthSeries_getElem?]
  by_cases he : j = k
  · subst he
    rw [List.getElem?_set_eq_of_lt (f j)
      (show j < (synthSeries f n j).length by rw [length_synthSeries]; omega)]
    simp [hj]
  · rw [List.getElem?_set_ne he, synthSeries_getElem?]
    by_cases hk : k < n
    · simp only [if_pos hk]
      have hiff : (k < j) ↔ (k < j + 1) := by omega
      exact congrArg some (if_congr hiff rfl rfl)
    · simp [hk]

theorem alookup_append_of_absent {β : Type} (m rest : List (Location × β))
    (k : Location) (h : ∀ e ∈ m, e.1 ≠ k) :
    alookup (m ++ rest) k = alookup rest k := by
  induction m with
  | nil => rfl
  | cons e tail ih =>
    have he : e.1 ≠ k := h e (by simp)
    simp only [List.cons_append, alookup, if_neg he]
    exact ih fun e' he' => h e' (by simp [he'])

theorem map_update_of_absent {β : Type} (m : List (Location × β))
    (k : Location) (g : Location × β → Location × β)
    (h : ∀ e ∈ m, e.1 ≠ k) :
    (m.map fun e => if e.1 = k then g e else e) = m := by
  induction m with
  | nil => rfl
  | cons e tail ih =>
    have he : e.1 ≠ k := h e (by simp)
    simp only [List.map_cons, if_neg he, List.cons.injEq, true_and]
    exact ih fun e' he' => h e' (by simp [he'])

theorem sumTier_append (p : Location → Bool)
    (a b : List (Location × List Int)) (i : Nat) :
    sumTier p (a ++ b) i = sumTier p a i + sumTier p b i := by
  simp [sumTier, List.filter_append]

theorem sumTier_cons (p : Location → Bool) (e : Location × List Int)
    (m : List (Location × List Int)) (i : Nat) :
    sumTier p (e :: m) i
      = (if p e.1 then e.2.getD i 0 else 0) + sumTier p m i := by
  by_cases hp : p e.1 <;> simp [sumTier, List.filter_cons, hp]

theorem sumTier_nil (p : Location → Bool) (i : Nat) : sumTier p [] i = 0 := rfl

theorem alookup_eq_none_of_absent {β : Type} (m : List (Location × β))
    (k : Location) (h : ∀ e ∈ m, e.1 ≠ k) : alookup m k = none := by
  have := alookup_append_of_absent m [] k h
  simpa using this

theorem setSlot_append_found (n : Nat) (m0 rest : List (Location × List Int))
    (l : Location) (i : Nat) (v : Int) (h0 : ∀ e ∈ m0, e.1 ≠ l)
    (hr : (alookup rest l).isSome) :
    setSlot n (m0 ++ rest) l i v
      = m0 ++ rest.map fun e => if e.1 = l then (e.1, e.2.set i v) else e := by
  unfold setSlot
  rw [alookup_append_of_absent m0 rest l h0, if_pos hr, List.map_append,
    map_update_of_absent m0 l _ h0]

theorem setSlot_append_missing (n : Nat) (m0 rest : List (Location × List Int))
    (l : Location) (i : Nat) (v : Int) (h0 : ∀ e ∈ m0, e.1 ≠ l)
    (hr : alookup rest l = none) :
    setSlot n (m0 ++ rest) l i v
      = m0 ++ (rest ++ [(l, (List.replicate n 0).set i v)]) := by
  unfold setSlot
  rw [alookup_append_of_absent m0 rest l h0, hr]
  simp

theorem locTO_isCountry : locTO.isCountry = true := by decide

theorem locTS_isState : locTS.isState = true := by decide

theorem locTC_isCounty : locTC.isCounty = true := by decide

theorem locTO_isState : locTO.isState = false := by decide

theorem locTO_isCounty : locTO.isCounty = false := by decide

theorem locTS_isCountry : locTS.isCountry = false := by decide

theorem locTS_isCounty : locTS.isCounty = false := by decide

theorem locTC_isCountry : locTC.isCountry = false := by decide

theorem locTC_isState : locTC.isState = false := by decide

theorem locTS_ne_locTO : locTS ≠ locTO := by decide

theorem locTC_ne_locTO : locTC ≠ locTO := by decide

theorem locTO_ne_locTS : locTO ≠ locTS := by decide

theorem locTC_ne_locTS : locTC ≠ locTS := by decide

theorem locTO_ne_locTC : locTO ≠ locTC := by decide

theorem locTS_ne_locTC : locTS ≠ locTC := by decide

/-- The three synthetic total entries as they stand after the first j day
offsets of the totals loop: each series holds, below j, the corresponding
tier sum over the original map m0, and 0 elsewhere. -/
def synthTriple (m0 : List (Location × List Int)) (n j : Nat) :
    List (Location × List Int) :=
  [(locTO, synthSeries (fun k => sumTier Location.isCountry m0 k) n j),
    (locTS, synthSeries (fun k => sumTier Location.isState m0 k) n j),
    (locTC, synthSeries (fun k => sumTier Location.isCounty m0 k) n j)]

theorem totalsStep_triple (n : Nat) (m0 : List (Location × List Int))
    (hkeys : ∀ e ∈ m0, e.1 ≠ locTO ∧ e.1 ≠ locTS ∧ e.1 ≠ locTC)
    (j : Nat) (hj : j < n) :
    totalsStep n (m0 ++ synthTriple m0 n j) j
      = m0 ++ synthTriple m0 n (j + 1) := by
  have hTO : ∀ e ∈ m0, e.1 ≠ locTO := fun e he => (hkeys e he).1
  have hTS : ∀ e ∈ m0, e.1 ≠ locTS := fun e he => (hkeys e he).2.1
  have hTC : ∀ e ∈ m0, e.1 ≠ locTC := fun e he => (hkeys e he).2.2
  have hsum1 : sumTier Location.isCountry (m0 ++ synthTriple m0 n j) j
      = sumTier Location.isCountry m0 j := by
    rw [sumTier_append]
    simp [synthTriple, sumTier_cons, sumTier_nil, locTO_isCountry,
      locTS_isCountry, locTC_isCountry, getElem?_getD_synthSeries]
  have hm1 : setSlot n (m0 ++ synthTriple m0 n j) locTO j
        (sumTier Location.isCountry (m0 ++ synthTriple m0 n j) j)
      = m0 ++
        [(locTO, synthSeries (fun k => sumTier Location.isCountry m0 k) n (j + 1)),
          (locTS, synthSeries (fun k => sumTier Location.isState m0 k) n j),
          (locTC, synthSeries (fun k => sumTier Location.isCounty m0 k) n j)] := by
    rw [hsum1, setSlot_append_found n m0 _ locTO j _ hTO
      (by simp [synthTriple, alookup])]
    simp only [synthTriple, List.map_cons, List.map_nil, if_pos,
      if_neg locTS_ne_locTO, if_neg locTC_ne_locTO]
    rw [set_synthSeries _ n j hj]
  have hsum2 : sumTier Location.isState (m0 ++
        [(locTO, synthSeries (fun k => sumTier Location.isCountry m0 k) n (j + 1)),
          (locTS, synthSeries (fun k => sumTier Location.isState m0 k) n j),
          (locTC, synthSeries (fun k => sumTier Location.isCounty m0 k) n j)]) j
      = sumTier Location.isState m0 j := by
    rw [sumTier_append]
    simp [sumTier_cons, sumTier_nil, locTO_isState, locTS_isState,
      locTC_isState, getElem?_getD_synthSeries]
  have hm2 : setSlot n (m0 ++
        [(locTO, synthSeries (fun k => sumTier Location.isCountry m0 k) n (j + 1)),
          (locTS, synthSeries (fun k => sumTier Location.isState m0 k) n j),
          (locTC, synthSeries (fun k => sumTier Location.isCounty m0 k) n j)])
        locTS j (sumTier Location.isState m0 j)
      = m0 ++
        [(locTO, synthSeries (fun k => sumTier Location.isCountry m0 k) n (j + 1)),
          (locTS, synthSeries (fun k => sumTier Location.isState m0 k) n (j + 1)),
          (locTC, synthSeries (fun k => sumTier Location.isCounty m0 k) n j)] := by
    rw [setSlot_append_found n m0 _ locTS j _ hTS
      (by simp [alookup, locTO_ne_locTS])]
    simp only [List.map_cons, List.map_nil, if_pos,
      if_neg locTO_ne_locTS, if_neg locTC_ne_locTS]
    rw [set_synthSeries _ n j hj]
  have hsum3 : sumTier Location.isCounty (m0 ++
        [(locTO, synthSeries (fun k => sumTier Location.isCountry m0 k) n (j + 1)),
          (locTS, synthSeries (fun k => sumTier Location.isState m0 k) n (j + 1)),
          (locTC, synthSeries (fun k => sumTier Location.isCounty m0 k) n j)]) j
      = sumTier Location.isCounty m0 j := by
    rw [sumTier_append]
    simp [sumTier_cons, sumTier_nil, locTO_isCounty, locTS_isCounty,
      locTC_isCounty, getElem?_getD_synthSeries]
  have hm3 : setSlot n (m0 ++
        [(locTO, synthSeries (fun k => sumTier Location.isCountry m0 k) n (j + 1)),
          (locTS, synthSeries (fun k => sumTier Location.isState m0 k) n (j + 1)),
          (locTC, synthSeries (fun k => sumTier Location.isCounty m0 k) n j)])
        locTC j (sumTier Location.isCounty m0 j)
      = m0 ++ synthTriple m0 n (j + 1) := by
    rw [setSlot_append_found n m0 _ locTC j _ hTC
      (by simp [alookup, locTO_ne_locTC, locTS_ne_locTC])]
    simp only [synthTriple, List.map_cons, List.map_nil, if_pos,
      if_neg locTO_ne_locTC, if_neg locTS_ne_locTC]
    rw [set_synthSeries _ n j hj]
  show setSlot n
      (setSlot n
        (setSlot n (m0 ++ synthTriple m0 n j) locTO j
          (sumTier Location.isCountry (m0 ++ synthTriple m0 n j) j))
        locTS j
        (sumTier Location.isState
          (setSlot n (m0 ++ synthTriple m0 n j) locTO j
            (sumTier Location.isCountry (m0 ++ synthTriple m0 n j) j)) j))
      locTC j
      (sumTier Location.isCounty
        (setSlot n
          (setSlot n (m0 ++ synthTriple m0 n j) locTO j
            (sumTier Location.isCountry (m0 ++ synthTriple m0 n j) j))
          locTS j
          (sumTier Location.isState
            (setSlot n (m0 ++ synthTriple m0 n j) locTO j
              (sumTier Location.isCountry (m0 ++ synthTriple m0 n j) j)) j)) j)
      = m0 ++ synthTriple m0 n (j + 1)
  rw [hm1, hsum2, hm2, hsum3, hm3]

theorem totalsStep_base (n : Nat) (m0 : List (Location × List Int))
    (hkeys : ∀ e ∈ m0, e.1 ≠ locTO ∧ e.1 ≠ locTS ∧ e.1 ≠ locTC)
    (hn : 0 < n) :
    totalsStep n m0 0 = m0 ++ synthTriple m0 n 1 := by
  have hTO : ∀ e ∈ m0, e.1 ≠ locTO := fun e he => (hkeys e he).1
  have hTS : ∀ e ∈ m0, e.1 ≠ locTS := fun e he => (hkeys e he).2.1
  have hTC : ∀ e ∈ m0, e.1 ≠ locTC := fun e he => (hkeys e he).2.2
  have hset : ∀ f : Nat → Int,
      (List.replicate n 0).set 0 (f 0) = synthSeries f n 1 := by
    intro f
    rw [← synthSeries_zero f n, set_synthSeries f n 0 hn]
  have hm1 : setSlot n m0 locTO 0 (sumTier Location.isCountry m0 0)
      = m0 ++
        [(locTO, synthSeries (fun k => sumTier Location.isCountry m0 k) n 1)] := by
    unfold setSlot
    rw [alookup_eq_none_of_absent m0 locTO hTO]
    simp only [Option.isSome_none, Bool.false_eq_true, if_false,
      List.append_cancel_left_eq]
    rw [hset fun k => sumTier Location.isCountry m0 k]
  have hsum2 : sumTier Location.isState (m0 ++
        [(locTO, synthSeries (fun k => sumTier Location.isCountry m0 k) n 1)]) 0
      = sumTier Location.isState m0 0 := by
    rw [sumTier_append]
    simp [sumTier_cons, sumTier_nil, locTO_isState]
  have hm2 : setSlot n (m0 ++
        [(locTO, synthSeries (fun k => sumTier Location.isCountry m0 k) n 1)])
        locTS 0 (sumTier Location.isState m0 0)
      = m0 ++
        [(locTO, synthSeries (fun k => sumTier Location.isCountry m0 k) n 1),
          (locTS, synthSeries (fun k => sumTier Location.isState m0 k) n 1)] := by
    rw [setSlot_append_missing n m0 _ locTS 0 _ hTS
      (by simp [alookup, locTO_ne_locTS])]
    rw [hset fun k => sumTier Location.isState m0 k]
    simp
  have hsum3 : sumTier Location.isCounty (m0 ++
        [(locTO, synthSeries (fun k => sumTier Location.isCountry m0 k) n 1),
          (locTS, synthSeries (fun k => sumTier Location.isState m0 k) n 1)]) 0
      = sumTier Location.isCounty m0 0 := by
    rw [sumTier_append]
    simp [sumTier_cons, sumTier_nil, locTO_isCounty, locTS_isCounty]
  have hm3 : setSlot n (m0 ++
        [(locTO, synthSeries (fun k => sumTier Location.isCountry m0 k) n 1),
          (locTS, synthSeries (fun k => sumTier Location.isState m0 k) n 1)])
        locTC 0 (sumTier Location.isCounty m0 0)
      = m0 ++ synthTriple m0 n 1 := by
    rw [setSlot_append_missing n m0 _ locTC 0 _ hTC
      (by simp [alookup, locTO_ne_locTC, locTS_ne_locTC])]
    rw [hset fun k => sumTier Location.isCounty m0 k]
    simp [synthTriple]
  show setSlot n
      (setSlot n (setSlot n m0 locTO 0 (sumTier Location.isCountry m0 0))
        locTS 0
        (sumTier Location.isState
          (setSlot n m0 locTO 0 (sumTier Location.isCountry m0 0)) 0))
      locTC 0
      (sumTier Location.isCounty
        (setSlot n (setSlot n m0 locTO 0 (sumTier Location.isCountry m0 0))
          locTS 0
          (sumTier Location.isState
            (setSlot n m0 locTO 0 (sumTier Location.isCountry m0 0)) 0)) 0)
      = m0 ++ synthTriple m0 n 1
  rw [hm1, hsum2, hm2, hsum3, hm3]

theorem totalsPass_invariant (n : Nat) (m0 : List (Location × List Int))
    (hkeys : ∀ e ∈ m0, e.1 ≠ locTO ∧ e.1 ≠ locTS ∧ e.1 ≠ locTC) :
    ∀ j, 1 ≤ j → j ≤ n →
      (List.range j).foldl (totalsStep n) m0 = m0 ++ synthTriple m0 n j := by
  intro j
  induction j with
  | zero => omega
  | succ j ih =>
    intro _ h2
    rcases Nat.eq_zero_or_pos j with hj0 | hjpos
    · subst hj0
      rw [show List.range 1 = [0] from rfl]
      simp only [List.foldl_cons, List.foldl_nil]
      exact totalsStep_base n m0 hkeys (by omega)
    · rw [List.range_succ, List.foldl_append, ih hjpos (by omega)]
      simp only [List.foldl_cons, List.foldl_nil]
      exact totalsStep_triple n m0 hkeys j (by omega)

/-- C5 (confirmed): after the totals loop, for every day offset i and each
metric's relative map, the grand-total location `_TO` holds exactly the sum
of the relative values of all `is_country` locations of the original map at
that offset, the state-total `_TS` the sum over all `is_state` locations, and
the county-total `_TC` the sum over all `is_county` locations; the sums range
over every location of the matching tier (none skipped), and the synthetic
entries themselves — created during the loop with zero-filled future slots —
contribute nothing to any offset's sum. -/
theorem c5_totals (n : Nat) (m0 : List (Location × List Int))
    (hkeys : ∀ e ∈ m0, e.1 ≠ locTO ∧ e.1 ≠ locTS ∧ e.1 ≠ locTC)
    (i : Nat) (hi : i < n) :
    (getSeries n (totalsPass n m0) locTO).getD i 0
        = sumTier Location.isCountry m0 i
    ∧ (getSeries n (totalsPass n m0) locTS).getD i 0
        = sumTier Location.isState m0 i
    ∧ (getSeries n (totalsPass n m0) locTC).getD i 0
        = sumTier Location.isCounty m0 i := by
  have hTO : ∀ e ∈ m0, e.1 ≠ locTO := fun e he => (hkeys e he).1
  have hTS : ∀ e ∈ m0, e.1 ≠ locTS := fun e he => (hkeys e he).2.1
  have hTC : ∀ e ∈ m0, e.1 ≠ locTC := fun e he => (hkeys e he).2.2
  have hfold : totalsPass n m0 = m0 ++ synthTriple m0 n n :=
    totalsPass_invariant n m0 hkeys n (by omega) (le_refl n)
  refine ⟨?_, ?_, ?_⟩
  · rw [getSeries, hfold, alookup_append_of_absent m0 _ locTO hTO]
    simp [synthTriple, alookup, getElem?_getD_synthSeries, hi]
  · rw [getSeries, hfold, alookup_append_of_absent m0 _ locTS hTS]
    simp [synthTriple, alookup, locTO_ne_locTS, getElem?_getD_synthSeries, hi]
  · rw [getSeries, hfold, alookup_append_of_absent m0 _ locTC hTC]
    simp [synthTriple, alookup, locTO_ne_locTC, locTS_ne_locTC,
      getElem?_getD_synthSeries, hi]

/-- C5 witness: a two-day map with one country (deltas [1, 2]) and one state
(deltas [3, 4]); at offset 1 the totals pass yields country total 2, state
total 4, county total 0. -/
theorem c5_totals_witness :
    (getSeries 2 (totalsPass 2
          [(Location.make "FRA" none none none, [1, 2]),
            (Location.make "USA" (some "Ohio") none none, [3, 4])])
        locTO).getD 1 0
      = sumTier Location.isCountry
          [(Location.make "FRA" none none none, [1, 2]),
            (Location.make "USA" (some "Ohio") none none, [3, 4])] 1
    ∧ (getSeries 2 (totalsPass 2
          [(Location.make "FRA" none none none, [1, 2]),
            (Location.make "USA" (some "Ohio") none none, [3, 4])])
        locTS).getD 1 0
      = sumTier Location.isState
          [(Location.make "FRA" none none none, [1, 2]),
            (Location.make "USA" (some "Ohio") none none, [3, 4])] 1
    ∧ (getSeries 2 (totalsPass 2
          [(Location.make "FRA" none none none, [1, 2]),
            (Location.make "USA" (some "Ohio") none none, [3, 4])])
        locTC).getD 1 0
      = sumTier Location.isCounty
          [(Location.make "FRA" none none none, [1, 2]),
            (Location.make "USA" (some "Ohio") none none, [3, 4])] 1 :=
  c5_totals 2
    [(Location.make "FRA" none none none, [1, 2]),
      (Location.make "USA" (some "Ohio") none none, [3, 4])]
    (by decide) 1 (by decide)

end Corona
